import Mathlib

/-!
Verification development for the tutorial script
AI-Agents-with-MongoDB/01-Building-AI-Agents-with-MongoDB/lessons/04-give-the-llm-access-to-tools/L4.py.

The script wires two retrieval functions, exposed as LLM tools, to external
services: a MongoDB Atlas document store (vector search over a chunked-documents
collection and exact-title lookup in a full-documents collection), a Voyage AI
embedding API and an OpenAI chat-completion API.  The script itself is pure
parameter passing; the external services are modelled here from the contracts
the specification states for them, and every piece of local logic (the
aggregation-pipeline literal, the projection, the truthiness branch of the
lookup, the join of result bodies, the single demonstration call in main) is
embedded directly from the source.
-/

/-- A record of the chunked-documents collection: a text fragment together with
its precomputed embedding.  The body field is kept optional because MongoDB
documents may lack the field; the data model of the specification says every
chunk carries a text body, which appears below as an explicit hypothesis where
a claim needs it. -/
structure ChunkedDoc where
  body : Option String
  embedding : List Rat
  deriving DecidableEq

/-- A record of the full-documents collection: a title used as lookup key and a
complete body.  The body field is optional for the same reason as in
ChunkedDoc. -/
structure FullDoc where
  title : String
  body : Option String
  deriving DecidableEq

/-- Modelled from the spec: the hosted Voyage AI embedding client created by
voyageai.Client(api_key=key_param.voyage_api_key).  Its embed method receives
the text, the model identifier and the input-type hint and returns the
embedding vector (the embeddings[0] indexing of the provider response is
collapsed into the returned vector).  The specification states the contract
that the named model variant produces vectors of one fixed dimension, recorded
here as the field embed_len. -/
structure VoyageClient where
  dim : Nat
  embed : String → String → String → List Rat
  embed_len : ∀ text, (embed text "voyage-3-lite" "query").length = dim

/-- Observable effects of the script on the document store.  The write
constructor is never produced by any function of this development; it exists so
that read-only behaviour is a statement about traces rather than a vacuity. -/
inductive DBEffect where
  | connect (uri : String)
  | openCollection (db coll : String)
  | aggregateRead (db coll : String)
  | findOneRead (db coll : String)
  | write (db coll : String)
  deriving DecidableEq

/-- True exactly on connect events. -/
def DBEffect.isConnect : DBEffect → Bool
  | .connect _ => true
  | _ => false

/-- True exactly on write events. -/
def DBEffect.isWrite : DBEffect → Bool
  | .write _ _ => true
  | _ => false

/-- The ambient configuration of one script run: the key_param credentials and
the contents of the two external collections together with the similarity
scoring function of the vector index (the index metric is external
configuration, so it is a parameter here). -/
structure Env where
  mongodb_uri : String
  openai_api_key : String
  score : List Rat → List Rat → Rat
  chunked_docs : List ChunkedDoc
  full_docs : List FullDoc
  voyage : VoyageClient

/-- The database name fixed by the source. -/
def DB_NAME : String := "ai_agents"

/-- The triple returned by init_mongodb: the client together with handles to
the two fixed collections.  Because the store is never written, a collection
handle is modelled as a snapshot of the collection contents. -/
structure MongoHandles where
  mongodb_client : String
  vs_collection : List ChunkedDoc
  full_collection : List FullDoc

/-- Embedding of init_mongodb: opens a fresh connection to the store at the
configured URI and returns handles to the chunked_docs and full_docs
collections inside the ai_agents database, recording the connection and the
two collection openings in the effect trace. -/
def init_mongodb (env : Env) : MongoHandles × List DBEffect :=
  ({ mongodb_client := env.mongodb_uri,
     vs_collection := env.chunked_docs,
     full_collection := env.full_docs },
   [DBEffect.connect env.mongodb_uri,
    DBEffect.openCollection DB_NAME "chunked_docs",
    DBEffect.openCollection DB_NAME "full_docs"])

/-- Embedding of generate_embedding: creates the Voyage client and requests an
embedding of the text with model voyage-3-lite and input type query. -/
def generate_embedding (env : Env) (text : String) : List Rat :=
  env.voyage.embed text "voyage-3-lite" "query"

/-- The vectorSearch stage dictionary of the aggregation pipeline, field for
field as the source writes it. -/
structure VectorSearchStage where
  index : String
  path : String
  queryVector : List Rat
  numCandidates : Nat
  limit : Nat
  deriving DecidableEq

/-- The value attached to a field name in the project stage: excluded (0),
included (1), or the vectorSearchScore meta expression. -/
inductive ProjectValue where
  | excluded
  | included
  | metaVectorSearchScore
  deriving DecidableEq

/-- The two-stage aggregation pipeline of the source: a vectorSearch stage
followed by a project stage. -/
structure Pipeline where
  vectorSearch : VectorSearchStage
  project : List (String × ProjectValue)
  deriving DecidableEq

/-- Embedding of the pipeline literal of
get_information_for_question_answering. -/
def pipeline (query_embedding : List Rat) : Pipeline :=
  { vectorSearch :=
      { index := "vector_index",
        path := "embedding",
        queryVector := query_embedding,
        numCandidates := 150,
        limit := 5 },
    project :=
      [("_id", ProjectValue.excluded),
       ("body", ProjectValue.included),
       ("score", ProjectValue.metaVectorSearchScore)] }

/-- A document produced by the project stage: the optional body field of the
source document and the similarity score. -/
structure SearchResult where
  body : Option String
  score : Rat
  deriving DecidableEq

/-- Modelled from the spec: the candidate ranking of the MongoDB vectorSearch
stage, ordering the collection by similarity score (most similar first). -/
def vectorSearchRank (score : List Rat → List Rat → Rat) (qv : List Rat)
    (coll : List ChunkedDoc) : List ChunkedDoc :=
  coll.mergeSort (fun a b => decide (score qv b.embedding ≤ score qv a.embedding))

/-- Modelled from the spec: the semantics of collection.aggregate on the
two-stage pipeline.  The vectorSearch stage keeps the numCandidates best
candidates and then truncates to the final limit; the project stage maps every
surviving document to its body field and similarity score, dropping the
identifier. -/
def aggregate (score : List Rat → List Rat → Rat) (coll : List ChunkedDoc)
    (p : Pipeline) : List SearchResult :=
  (((vectorSearchRank score p.vectorSearch.queryVector coll).take
      p.vectorSearch.numCandidates).take p.vectorSearch.limit).map
    (fun d => { body := d.body, score := score p.vectorSearch.queryVector d.embedding })

/-- Sequences the optional bodies produced by doc.get applied to the results:
none as soon as one body is missing, mirroring that the string join of the
source raises TypeError on a None element. -/
def sequenceBodies : List (Option String) → Option (List String)
  | [] => some []
  | none :: _ => none
  | some s :: rest => (sequenceBodies rest).map (fun l => s :: l)

/-- Embedding of the join expression of the source: the bodies joined with a
blank-line separator, or none when the join would raise TypeError. -/
def joinBodies (bodies : List (Option String)) : Option String :=
  (sequenceBodies bodies).map (String.intercalate "\n\n")

/-- Embedding of get_information_for_question_answering: embed the query, open
a fresh store connection, run the aggregation pipeline on the chunked_docs
collection and join the result bodies.  The first component is some context
string, or none when the join raises; the second component is the effect
trace. -/
def get_information_for_question_answering (env : Env) (user_query : String) :
    Option String × List DBEffect :=
  let query_embedding := generate_embedding env user_query
  let (handles, trace) := init_mongodb env
  let vs_collection := handles.vs_collection
  let results := aggregate env.score vs_collection (pipeline query_embedding)
  let context := joinBodies (results.map SearchResult.body)
  (context, trace ++ [DBEffect.aggregateRead DB_NAME "chunked_docs"])

/-- The projected results the aggregation of
get_information_for_question_answering produces, named for use in
statements. -/
def searchResults (env : Env) (user_query : String) : List SearchResult :=
  aggregate env.score env.chunked_docs (pipeline (generate_embedding env user_query))

/-- Embedding of get_page_content_for_summarization: open a fresh store
connection, run find_one on the full_docs collection with the query title and
the projection excluding the identifier and including the body.  The projected
document is truthy exactly when the body field is present; the falsy branch
returns the sentinel string. -/
def get_page_content_for_summarization (env : Env) (user_query : String) :
    String × List DBEffect :=
  let (handles, trace) := init_mongodb env
  let full_collection := handles.full_collection
  let document : Option (Option String) :=
    (full_collection.find? (fun d => d.title == user_query)).map FullDoc.body
  let answer :=
    match document with
    | some (some body) => body
    | some none => "Document not found"
    | none => "Document not found"
  (answer, trace ++ [DBEffect.findOneRead DB_NAME "full_docs"])

/-- A structured tool call emitted by the chat model. -/
structure ToolCall where
  name : String
  arguments : String
  deriving DecidableEq

/-- Modelled from the spec: the response object of the chat-completion API,
exposing the tool_calls field. -/
structure ChatResponse where
  tool_calls : List ToolCall

/-- One chat-completion request as main assembles it: credentials, sampling
temperature, model identifier, the rendered prompt message, the names of the
bound tools and the user message list. -/
structure ChatRequest where
  openai_api_key : String
  temperature : Nat
  model : String
  prompt_message : String
  bound_tools : List String
  messages : List String
  deriving DecidableEq

/-- The names of the two registered tools, in registration order. -/
def tool_names : List String :=
  ["get_information_for_question_answering", "get_page_content_for_summarization"]

/-- The prompt template string of main, with the tool_names placeholder still
unsubstituted. -/
def prompt_template : String :=
  "You are a helpful AI assistant. You are provided with tools to answer questions and summarize technical documentation related to MongoDB. Think step-by-step and use these tools to get the information required to answer the user query. Do not re-run tools unless absolutely necessary. If you are not able to get enough information using the tools, reply with I DON\x27T KNOW. You have access to the following tools: \x7btool_names\x7d."

/-- The fixed demonstration question of main. -/
def demo_question : String :=
  "What are some best practices for data backups in MongoDB?"

/-- The single chat request main submits: model gpt-4o at temperature 0, the
prompt with the comma-joined tool names substituted for the placeholder, both
tools bound, and the one fixed user message. -/
def mainRequest (env : Env) : ChatRequest :=
  { openai_api_key := env.openai_api_key,
    temperature := 0,
    model := "gpt-4o",
    prompt_message :=
      prompt_template.replace "\x7btool_names\x7d" (String.intercalate ", " tool_names),
    bound_tools := tool_names,
    messages := [demo_question] }

/-- What one run of main does: the chat requests it submits, the tool_calls
value it prints, and its document-store effect trace. -/
structure MainRun where
  requests : List ChatRequest
  printed_tool_calls : List ToolCall
  db_effects : List DBEffect

/-- Embedding of main: initialize the store handles (the only store effect),
assemble the prompt and the tool bindings, submit the single demonstration
request to the chat model and print the tool_calls field of the response.
Neither tool is executed and no further request is made. -/
def main_run (env : Env) (chat : ChatRequest → ChatResponse) : MainRun :=
  let (_handles, trace) := init_mongodb env
  let req := mainRequest env
  let tool_call_check := (chat req).tool_calls
  { requests := [req], printed_tool_calls := tool_call_check, db_effects := trace }

/-- A concrete instance of the modelled Voyage client, with dimension one. -/
def demoVoyageClient : VoyageClient where
  dim := 1
  embed := fun _ _ _ => [(0 : Rat)]
  embed_len := fun _ => rfl

/-- A concrete environment used to instantiate the theorems: two chunked
records with bodies and one full document. -/
def demoEnv : Env where
  mongodb_uri := "mongodb+srv://demo"
  openai_api_key := "demo-key"
  score := fun _ _ => 0
  chunked_docs :=
    [{ body := some "Chunk about backups.", embedding := [0] },
     { body := some "Chunk about restores.", embedding := [0] }]
  full_docs := [{ title := "Backups", body := some "Use mongodump regularly." }]
  voyage := demoVoyageClient

/-- The demo environment with an empty chunked-documents collection. -/
def envEmptyChunks : Env := { demoEnv with chunked_docs := [] }

/-- The demo environment with a full document whose body field is absent. -/
def envGhost : Env :=
  { demoEnv with full_docs := [{ title := "Ghost", body := none }] }

/-- The demo environment with a full document whose body is the empty
string. -/
def envEmptyBody : Env :=
  { demoEnv with full_docs := [{ title := "Empty", body := some "" }] }

example : (get_page_content_for_summarization demoEnv "Backups").1 =
    "Use mongodump regularly." := by decide

example : (get_page_content_for_summarization demoEnv "Unknown").1 =
    "Document not found" := by decide

/-- The first component of the semantic search tool is the joined bodies of
the projected aggregation results. -/
theorem get_information_fst (env : Env) (user_query : String) :
    (get_information_for_question_answering env user_query).1 =
      joinBodies ((searchResults env user_query).map SearchResult.body) := rfl

/-- Sequencing a list of bodies that are all present yields exactly those
bodies: the produced list, mapped back through some, is the input list. -/
theorem sequenceBodies_of_all_some :
    ∀ bodies : List (Option String), (∀ b ∈ bodies, b.isSome = true) →
      ∃ l, sequenceBodies bodies = some l ∧ bodies = l.map some
  | [], _ => ⟨[], rfl, rfl⟩
  | none :: _, h => by
      have := h none (List.mem_cons_self _ _)
      simp at this
  | some s :: rest, h => by
      obtain ⟨l, hl, hrest⟩ :=
        sequenceBodies_of_all_some rest (fun b hb => h b (List.mem_cons_of_mem _ hb))
      exact ⟨s :: l, by simp [sequenceBodies, hl], by simp [hrest]⟩

/-- Sequencing succeeds exactly when every body is present. -/
theorem sequenceBodies_isSome_iff :
    ∀ bodies : List (Option String),
      (sequenceBodies bodies).isSome = true ↔ ∀ b ∈ bodies, b.isSome = true
  | [] => by simp [sequenceBodies]
  | none :: rest => by simp [sequenceBodies]
  | some s :: rest => by
      simp [sequenceBodies, sequenceBodies_isSome_iff rest]

/-- The aggregation returns min(limit, min(numCandidates, collection size))
results. -/
theorem aggregate_length (sc : List Rat → List Rat → Rat) (coll : List ChunkedDoc)
    (p : Pipeline) :
    (aggregate sc coll p).length =
      min p.vectorSearch.limit (min p.vectorSearch.numCandidates coll.length) := by
  simp [aggregate, vectorSearchRank]

/-- Every aggregation result takes its body from some document of the
collection. -/
theorem aggregate_body_mem (sc : List Rat → List Rat → Rat) (coll : List ChunkedDoc)
    (p : Pipeline) (r : SearchResult) (hr : r ∈ aggregate sc coll p) :
    ∃ d ∈ coll, r.body = d.body := by
  simp only [aggregate, List.mem_map] at hr
  obtain ⟨d, hd, rfl⟩ := hr
  have hd2 : d ∈ vectorSearchRank sc p.vectorSearch.queryVector coll :=
    List.take_subset _ _ (List.take_subset _ _ hd)
  rw [vectorSearchRank] at hd2
  exact ⟨d, (List.mergeSort_perm coll _).mem_iff.mp hd2, rfl⟩

/-- Claim C2: for every title present in the full-documents collection, the
exact lookup tool returns exactly the stored body text of the document the
lookup finds (round-trip identity between stored body and returned string). -/
theorem exact_lookup_round_trip (env : Env) (title : String) (d : FullDoc)
    (body : String)
    (hfind : env.full_docs.find? (fun doc => doc.title == title) = some d)
    (hbody : d.body = some body) :
    (get_page_content_for_summarization env title).1 = body := by
  simp [get_page_content_for_summarization, init_mongodb, hfind, hbody]

/-- Witness for C2 at the demo environment and the stored title Backups. -/
theorem exact_lookup_round_trip_witness :
    demoEnv.full_docs.find? (fun doc => doc.title == "Backups") =
        some { title := "Backups", body := some "Use mongodump regularly." } ∧
      (get_page_content_for_summarization demoEnv "Backups").1 =
        "Use mongodump regularly." :=
  ⟨by decide,
   exact_lookup_round_trip demoEnv "Backups"
     { title := "Backups", body := some "Use mongodump regularly." }
     "Use mongodump regularly." (by decide) rfl⟩

/-- Claim C3: for every title absent from the full-documents collection, the
exact lookup tool returns the literal sentinel string. -/
theorem exact_lookup_not_found (env : Env) (title : String)
    (habsent : ∀ d ∈ env.full_docs, d.title ≠ title) :
    (get_page_content_for_summarization env title).1 = "Document not found" := by
  have hfind : env.full_docs.find? (fun doc => doc.title == title) = none := by
    rw [List.find?_eq_none]
    intro d hd
    simpa using habsent d hd
  simp [get_page_content_for_summarization, init_mongodb, hfind]

/-- Witness for C3 at the demo environment and an absent title. -/
theorem exact_lookup_not_found_witness :
    (∀ d ∈ demoEnv.full_docs, d.title ≠ "Unknown") ∧
      (get_page_content_for_summarization demoEnv "Unknown").1 =
        "Document not found" :=
  ⟨by decide, exact_lookup_not_found demoEnv "Unknown" (by decide)⟩

/-- Claim C9: the found/not-found branch of the exact lookup tool is decided by
truthiness of the projected document.  When the first matching document lacks a
body field the projection is empty and the tool answers with the sentinel even
though a matching record exists; when the body is the empty string the
projection is truthy and the tool returns the empty string. -/
theorem exact_lookup_truthiness (env : Env) (title : String) (d : FullDoc)
    (hfind : env.full_docs.find? (fun doc => doc.title == title) = some d) :
    (d.body = none →
      (get_page_content_for_summarization env title).1 = "Document not found") ∧
    (d.body = some "" → (get_page_content_for_summarization env title).1 = "") := by
  constructor <;> intro hb <;>
    simp [get_page_content_for_summarization, init_mongodb, hfind, hb]

/-- Witness for C9: a stored bodiless document titled Ghost yields the
sentinel, a stored empty-bodied document titled Empty yields the empty
string. -/
theorem exact_lookup_truthiness_witness :
    (get_page_content_for_summarization envGhost "Ghost").1 = "Document not found" ∧
      (get_page_content_for_summarization envEmptyBody "Empty").1 = "" :=
  ⟨(exact_lookup_truthiness envGhost "Ghost" { title := "Ghost", body := none }
      (by decide)).1 rfl,
   (exact_lookup_truthiness envEmptyBody "Empty" { title := "Empty", body := some "" }
      (by decide)).2 rfl⟩

/-- Claim C5: for every query, the semantic search tool submits the aggregation
with index vector_index, search path embedding, the query embedding as the
query vector, a candidate pool of 150 and a result limit of 5, followed by a
projection excluding the identifier and including exactly the body and the
similarity score; the returned string is the join of the bodies this pipeline
produces. -/
theorem vector_search_query_shape (env : Env) (user_query : String)
    (qv : List Rat) :
    (pipeline qv).vectorSearch.index = "vector_index" ∧
    (pipeline qv).vectorSearch.path = "embedding" ∧
    (pipeline qv).vectorSearch.queryVector = qv ∧
    (pipeline qv).vectorSearch.numCandidates = 150 ∧
    (pipeline qv).vectorSearch.limit = 5 ∧
    (pipeline qv).project =
      [("_id", ProjectValue.excluded),
       ("body", ProjectValue.included),
       ("score", ProjectValue.metaVectorSearchScore)] ∧
    (get_information_for_question_answering env user_query).1 =
      joinBodies ((aggregate env.score env.chunked_docs
        (pipeline (generate_embedding env user_query))).map SearchResult.body) :=
  ⟨rfl, rfl, rfl, rfl, rfl, rfl, rfl⟩

/-- Claim C6: every invocation of either tool opens exactly one fresh
connection of its own via init_mongodb, addresses only the fixed collections
chunked_docs and full_docs of the fixed database ai_agents, and performs no
write; the whole effect trace of each call is spelled out, so no state is
carried from one call to another. -/
theorem tools_fresh_connection_readonly (env : Env) (q1 q2 : String) :
    (get_information_for_question_answering env q1).2 =
      [DBEffect.connect env.mongodb_uri,
       DBEffect.openCollection "ai_agents" "chunked_docs",
       DBEffect.openCollection "ai_agents" "full_docs",
       DBEffect.aggregateRead "ai_agents" "chunked_docs"] ∧
    (get_page_content_for_summarization env q2).2 =
      [DBEffect.connect env.mongodb_uri,
       DBEffect.openCollection "ai_agents" "chunked_docs",
       DBEffect.openCollection "ai_agents" "full_docs",
       DBEffect.findOneRead "ai_agents" "full_docs"] ∧
    (get_information_for_question_answering env q1).2.countP DBEffect.isConnect = 1 ∧
    (get_page_content_for_summarization env q2).2.countP DBEffect.isConnect = 1 ∧
    (get_information_for_question_answering env q1).2.countP DBEffect.isWrite = 0 ∧
    (get_page_content_for_summarization env q2).2.countP DBEffect.isWrite = 0 :=
  ⟨rfl, rfl, rfl, rfl, rfl, rfl⟩

/-- Claim C7: for every chat model, main submits exactly one request, with
model gpt-4o, temperature 0, both tools bound, and the fixed demonstration
question as the only user message; it prints the tool_calls field of the
response, and its only store effect is the single initial connection with its
two collection handles — no tool is executed and no further turn happens. -/
theorem main_single_shot_demo (env : Env) (chat : ChatRequest → ChatResponse) :
    (main_run env chat).requests = [mainRequest env] ∧
    (mainRequest env).model = "gpt-4o" ∧
    (mainRequest env).temperature = 0 ∧
    (mainRequest env).bound_tools =
      ["get_information_for_question_answering",
       "get_page_content_for_summarization"] ∧
    (mainRequest env).messages =
      ["What are some best practices for data backups in MongoDB?"] ∧
    (main_run env chat).printed_tool_calls = (chat (mainRequest env)).tool_calls ∧
    (main_run env chat).db_effects =
      [DBEffect.connect env.mongodb_uri,
       DBEffect.openCollection "ai_agents" "chunked_docs",
       DBEffect.openCollection "ai_agents" "full_docs"] :=
  ⟨rfl, rfl, rfl, rfl, rfl, rfl, rfl⟩

/-- Claim C8: every call of generate_embedding returns a vector whose length is
the fixed dimension of the client, so any two calls return vectors of equal
length regardless of the input text. -/
theorem embedding_fixed_dimension (env : Env) (text1 text2 : String) :
    (generate_embedding env text1).length = env.voyage.dim ∧
    (generate_embedding env text1).length = (generate_embedding env text2).length :=
  ⟨env.voyage.embed_len text1,
   (env.voyage.embed_len text1).trans (env.voyage.embed_len text2).symm⟩

/-- Claim C1: for every query, when every stored chunk carries a body (the data
model of the specification), the semantic search tool returns exactly the
bodies of the vector-search results joined with one blank line between adjacent
segments, and there are at most 5 of them: the segment list is pinned to the
projected result-body list, which it equals after mapping through some. -/
theorem semantic_search_at_most_five_segments (env : Env) (user_query : String)
    (hbodies : ∀ d ∈ env.chunked_docs, d.body.isSome = true) :
    ∃ segs : List String,
      (searchResults env user_query).map SearchResult.body = segs.map some ∧
      segs.length ≤ 5 ∧
      (get_information_for_question_answering env user_query).1 =
        some (String.intercalate "\n\n" segs) := by
  have hall : ∀ b ∈ (searchResults env user_query).map SearchResult.body,
      b.isSome = true := by
    intro b hb
    obtain ⟨r, hr, rfl⟩ := List.mem_map.mp hb
    obtain ⟨d, hd, heq⟩ := aggregate_body_mem _ _ _ r hr
    rw [heq]
    exact hbodies d hd
  obtain ⟨l, hl, hpin⟩ := sequenceBodies_of_all_some _ hall
  have hcount : (searchResults env user_query).length =
      min 5 (min 150 env.chunked_docs.length) := by
    simp [searchResults, aggregate_length, pipeline]
  have hlen : (searchResults env user_query).length = l.length := by
    have := congrArg List.length hpin
    simpa using this
  refine ⟨l, hpin, ?_, ?_⟩
  · omega
  · rw [get_information_fst]
    simp only [joinBodies, hl]
    rfl

/-- Witness for C1 at the demo environment, whose two chunks both carry
bodies. -/
theorem semantic_search_at_most_five_segments_witness :
    (∀ d ∈ demoEnv.chunked_docs, d.body.isSome = true) ∧
      ∃ segs : List String,
        (searchResults demoEnv "backups").map SearchResult.body = segs.map some ∧
        segs.length ≤ 5 ∧
        (get_information_for_question_answering demoEnv "backups").1 =
          some (String.intercalate "\n\n" segs) :=
  ⟨by decide, semantic_search_at_most_five_segments demoEnv "backups" (by decide)⟩

/-- Claim C4: with an empty chunked-documents collection the semantic search
tool returns the empty string, not a sentinel; and with fewer than 5 stored
chunks (all carrying bodies) it returns exactly one segment per stored chunk,
not padded to 5: the segment list is pinned to the projected result-body list
(it equals that list after mapping through some) and has exactly one entry per
stored chunk. -/
theorem semantic_search_empty_and_not_padded (env : Env) (user_query : String) :
    (env.chunked_docs = [] →
      (get_information_for_question_answering env user_query).1 = some "") ∧
    ((∀ d ∈ env.chunked_docs, d.body.isSome = true) →
      env.chunked_docs.length ≤ 5 →
      ∃ segs : List String,
        (searchResults env user_query).map SearchResult.body = segs.map some ∧
        segs.length = env.chunked_docs.length ∧
        (get_information_for_question_answering env user_query).1 =
          some (String.intercalate "\n\n" segs)) := by
  constructor
  · intro h
    rw [get_information_fst]
    simp only [searchResults, aggregate, vectorSearchRank, h, joinBodies,
      sequenceBodies, List.mergeSort_nil, List.take_nil, List.map_nil,
      Option.map_some']
    rfl
  · intro hbodies hsmall
    have hall : ∀ b ∈ (searchResults env user_query).map SearchResult.body,
        b.isSome = true := by
      intro b hb
      obtain ⟨r, hr, rfl⟩ := List.mem_map.mp hb
      obtain ⟨d, hd, heq⟩ := aggregate_body_mem _ _ _ r hr
      rw [heq]
      exact hbodies d hd
    obtain ⟨l, hl, hpin⟩ := sequenceBodies_of_all_some _ hall
    have hcount : (searchResults env user_query).length =
        min 5 (min 150 env.chunked_docs.length) := by
      simp [searchResults, aggregate_length, pipeline]
    have hlen : (searchResults env user_query).length = l.length := by
      have := congrArg List.length hpin
      simpa using this
    refine ⟨l, hpin, ?_, ?_⟩
    · omega
    · rw [get_information_fst]
      simp only [joinBodies, hl]
      rfl

/-- Witness for C4: the empty collection yields the empty string, and the
two-chunk demo collection yields exactly two segments, one per stored
chunk. -/
theorem semantic_search_empty_and_not_padded_witness :
    (get_information_for_question_answering envEmptyChunks "q").1 = some "" ∧
      ∃ segs : List String,
        (searchResults demoEnv "q").map SearchResult.body = segs.map some ∧
        segs.length = demoEnv.chunked_docs.length ∧
        (get_information_for_question_answering demoEnv "q").1 =
          some (String.intercalate "\n\n" segs) :=
  ⟨(semantic_search_empty_and_not_padded envEmptyChunks "q").1 rfl,
   (semantic_search_empty_and_not_padded demoEnv "q").2 (by decide) (by decide)⟩

/-- Claim C10: the semantic search tool returns a string (rather than raising
TypeError in the string join, modelled as none) exactly when every result of
the vector search carries a body field. -/
theorem semantic_search_total_iff_bodies (env : Env) (user_query : String) :
    (get_information_for_question_answering env user_query).1.isSome = true ↔
      ∀ r ∈ searchResults env user_query, r.body.isSome = true := by
  rw [get_information_fst]
  simp only [joinBodies, Option.isSome_map']
  rw [sequenceBodies_isSome_iff]
  constructor
  · intro h r hr
    exact h r.body (List.mem_map_of_mem _ hr)
  · intro h b hb
    obtain ⟨r, hr, rfl⟩ := List.mem_map.mp hb
    exact h r hr
